import Mathlib

/-!
Verification of the declaration model, equivalence engine and receiver
encoder of the `ritual` C++ binding generator.

The functions of `ritual/src/cpp_function.rs` and the slot-wrapper branch of
`ritual/src/doc_formatter.rs` are embedded shallowly.  The auxiliary data
model (`CppType`, `CppPath`, `CppVisibility`, `CppOperator`, the
`to_cpp_code` pretty printer, `contains_template_parameter` and the
`map_if_ok` utility) lives in files that are not part of the provided
sources; those definitions are modelled from the specification, as marked
in their doc comments.
-/

/-- Modelled from the spec: the two pointer-like wrapper kinds of the type
model (`cpp_type.rs` is not among the provided sources). -/
inductive CppPointerLikeTypeKind where
  | Pointer
  | Reference
deriving DecidableEq

mutual

/-- Modelled from the spec: the closed variant type of C++ types —
`Class(path)`, `PointerLike(is_const, kind, target)`, `TemplateParameter(id)`,
`FunctionPointer(...)`, primitive/void (`cpp_type.rs` is not among the
provided sources).  Lists and the optional template-argument list are
represented by dedicated members of the mutual family so that all
operations are structurally recursive. -/
inductive CppType where
  | Void : CppType
  | Primitive (name : String) : CppType
  | Class (path : CppPath) : CppType
  | PointerLike (is_const : Bool) (kind : CppPointerLikeTypeKind) (target : CppType) : CppType
  | TemplateParameter (id : Nat) : CppType
  | FunctionPointer (return_type : CppType) (arg_types : CppTypeList) : CppType

/-- A list of `CppType` values, as a member of the mutual family. -/
inductive CppTypeList where
  | nil : CppTypeList
  | cons (head : CppType) (tail : CppTypeList) : CppTypeList

/-- The optional template-argument list of a path segment (`None` /
`Some(list)` in the source). -/
inductive CppTemplateArgs where
  | noArgs : CppTemplateArgs
  | args (l : CppTypeList) : CppTemplateArgs

/-- Modelled from the spec: a named path segment which may carry template
arguments (`cpp_data.rs` is not among the provided sources). -/
inductive CppPathItem where
  | mk (name : String) (template_arguments : CppTemplateArgs) : CppPathItem

/-- A list of `CppPathItem` values, as a member of the mutual family. -/
inductive CppPathRest where
  | nil : CppPathRest
  | cons (head : CppPathItem) (tail : CppPathRest) : CppPathRest

/-- Modelled from the spec: a non-empty ordered sequence of named segments;
the head segment is stored apart from the rest so that non-emptiness is
structural (`cpp_data.rs` is not among the provided sources). -/
inductive CppPath where
  | mk (first : CppPathItem) (rest : CppPathRest) : CppPath

end

mutual

/-- Structural equality test on `CppType` (value equality over the tree). -/
def CppType.beq : CppType → CppType → Bool
  | .Void, .Void => true
  | .Primitive n1, .Primitive n2 => n1 == n2
  | .Class p1, .Class p2 => p1.beq p2
  | .PointerLike c1 k1 t1, .PointerLike c2 k2 t2 =>
    c1 == c2 && (decide (k1 = k2)) && t1.beq t2
  | .TemplateParameter i1, .TemplateParameter i2 => i1 == i2
  | .FunctionPointer r1 a1, .FunctionPointer r2 a2 => r1.beq r2 && a1.beq a2
  | _, _ => false
termination_by structural a _ => a

/-- Structural equality test on `CppTypeList`. -/
def CppTypeList.beq : CppTypeList → CppTypeList → Bool
  | .nil, .nil => true
  | .cons t ts, .cons u us => t.beq u && ts.beq us
  | _, _ => false
termination_by structural a _ => a

/-- Structural equality test on `CppTemplateArgs`. -/
def CppTemplateArgs.beq : CppTemplateArgs → CppTemplateArgs → Bool
  | .noArgs, .noArgs => true
  | .args l1, .args l2 => l1.beq l2
  | _, _ => false
termination_by structural a _ => a

/-- Structural equality test on `CppPathItem`. -/
def CppPathItem.beq : CppPathItem → CppPathItem → Bool
  | .mk n1 a1, .mk n2 a2 => n1 == n2 && a1.beq a2
termination_by structural a _ => a

/-- Structural equality test on `CppPathRest`. -/
def CppPathRest.beq : CppPathRest → CppPathRest → Bool
  | .nil, .nil => true
  | .cons i is, .cons j js => i.beq j && is.beq js
  | _, _ => false
termination_by structural a _ => a

/-- Structural equality test on `CppPath`. -/
def CppPath.beq : CppPath → CppPath → Bool
  | .mk f1 r1, .mk f2 r2 => f1.beq f2 && r1.beq r2
termination_by structural a _ => a

end

mutual

/-- `CppType.beq` is reflexive. -/
def CppType.beq_refl : ∀ a : CppType, a.beq a = true
  | .Void => rfl
  | .Primitive n => by simp [CppType.beq]
  | .Class p => by simp [CppType.beq, p.beq_refl]
  | .PointerLike c k t => by simp [CppType.beq, t.beq_refl]
  | .TemplateParameter i => by simp [CppType.beq]
  | .FunctionPointer r a => by simp [CppType.beq, r.beq_refl, a.beq_refl]

/-- `CppTypeList.beq` is reflexive. -/
def CppTypeList.beq_refl : ∀ a : CppTypeList, a.beq a = true
  | .nil => rfl
  | .cons t ts => by simp [CppTypeList.beq, t.beq_refl, ts.beq_refl]

/-- `CppTemplateArgs.beq` is reflexive. -/
def CppTemplateArgs.beq_refl : ∀ a : CppTemplateArgs, a.beq a = true
  | .noArgs => rfl
  | .args l => by simp [CppTemplateArgs.beq, l.beq_refl]

/-- `CppPathItem.beq` is reflexive. -/
def CppPathItem.beq_refl : ∀ a : CppPathItem, a.beq a = true
  | .mk n ta => by simp [CppPathItem.beq, ta.beq_refl]

/-- `CppPathRest.beq` is reflexive. -/
def CppPathRest.beq_refl : ∀ a : CppPathRest, a.beq a = true
  | .nil => rfl
  | .cons i is => by simp [CppPathRest.beq, i.beq_refl, is.beq_refl]

/-- `CppPath.beq` is reflexive. -/
def CppPath.beq_refl : ∀ a : CppPath, a.beq a = true
  | .mk f r => by simp [CppPath.beq, f.beq_refl, r.beq_refl]

end

mutual

/-- `CppType.beq` implies equality. -/
def CppType.eq_of_beq : ∀ a b : CppType, a.beq b = true → a = b
  | .Void, .Void, _ => rfl
  | .Primitive n1, .Primitive n2, h => by
    simp only [CppType.beq, beq_iff_eq] at h; rw [h]
  | .Class p1, .Class p2, h => by
    simp only [CppType.beq] at h; rw [CppPath.eq_of_beq p1 p2 h]
  | .PointerLike c1 k1 t1, .PointerLike c2 k2 t2, h => by
    simp only [CppType.beq, Bool.and_eq_true, beq_iff_eq, decide_eq_true_eq] at h
    rw [h.1.1, h.1.2, CppType.eq_of_beq t1 t2 h.2]
  | .TemplateParameter i1, .TemplateParameter i2, h => by
    simp only [CppType.beq, beq_iff_eq] at h; rw [h]
  | .FunctionPointer r1 a1, .FunctionPointer r2 a2, h => by
    simp only [CppType.beq, Bool.and_eq_true] at h
    rw [CppType.eq_of_beq r1 r2 h.1, CppTypeList.eq_of_beq a1 a2 h.2]
  | .Void, .Primitive _, h => by simp [CppType.beq] at h
  | .Void, .Class _, h => by simp [CppType.beq] at h
  | .Void, .PointerLike _ _ _, h => by simp [CppType.beq] at h
  | .Void, .TemplateParameter _, h => by simp [CppType.beq] at h
  | .Void, .FunctionPointer _ _, h => by simp [CppType.beq] at h
  | .Primitive _, .Void, h => by simp [CppType.beq] at h
  | .Primitive _, .Class _, h => by simp [CppType.beq] at h
  | .Primitive _, .PointerLike _ _ _, h => by simp [CppType.beq] at h
  | .Primitive _, .TemplateParameter _, h => by simp [CppType.beq] at h
  | .Primitive _, .FunctionPointer _ _, h => by simp [CppType.beq] at h
  | .Class _, .Void, h => by simp [CppType.beq] at h
  | .Class _, .Primitive _, h => by simp [CppType.beq] at h
  | .Class _, .PointerLike _ _ _, h => by simp [CppType.beq] at h
  | .Class _, .TemplateParameter _, h => by simp [CppType.beq] at h
  | .Class _, .FunctionPointer _ _, h => by simp [CppType.beq] at h
  | .PointerLike _ _ _, .Void, h => by simp [CppType.beq] at h
  | .PointerLike _ _ _, .Primitive _, h => by simp [CppType.beq] at h
  | .PointerLike _ _ _, .Class _, h => by simp [CppType.beq] at h
  | .PointerLike _ _ _, .TemplateParameter _, h => by simp [CppType.beq] at h
  | .PointerLike _ _ _, .FunctionPointer _ _, h => by simp [CppType.beq] at h
  | .TemplateParameter _, .Void, h => by simp [CppType.beq] at h
  | .TemplateParameter _, .Primitive _, h => by simp [CppType.beq] at h
  | .TemplateParameter _, .Class _, h => by simp [CppType.beq] at h
  | .TemplateParameter _, .PointerLike _ _ _, h => by simp [CppType.beq] at h
  | .TemplateParameter _, .FunctionPointer _ _, h => by simp [CppType.beq] at h
  | .FunctionPointer _ _, .Void, h => by simp [CppType.beq] at h
  | .FunctionPointer _ _, .Primitive _, h => by simp [CppType.beq] at h
  | .FunctionPointer _ _, .Class _, h => by simp [CppType.beq] at h
  | .FunctionPointer _ _, .PointerLike _ _ _, h => by simp [CppType.beq] at h
  | .FunctionPointer _ _, .TemplateParameter _, h => by simp [CppType.beq] at h

/-- `CppTypeList.beq` implies equality. -/
def CppTypeList.eq_of_beq : ∀ a b : CppTypeList, a.beq b = true → a = b
  | .nil, .nil, _ => rfl
  | .cons t ts, .cons u us, h => by
    simp only [CppTypeList.beq, Bool.and_eq_true] at h
    rw [CppType.eq_of_beq t u h.1, CppTypeList.eq_of_beq ts us h.2]
  | .nil, .cons _ _, h => by simp [CppTypeList.beq] at h
  | .cons _ _, .nil, h => by simp [CppTypeList.beq] at h

/-- `CppTemplateArgs.beq` implies equality. -/
def CppTemplateArgs.eq_of_beq : ∀ a b : CppTemplateArgs, a.beq b = true → a = b
  | .noArgs, .noArgs, _ => rfl
  | .args l1, .args l2, h => by
    simp only [CppTemplateArgs.beq] at h
    rw [CppTypeList.eq_of_beq l1 l2 h]
  | .noArgs, .args _, h => by simp [CppTemplateArgs.beq] at h
  | .args _, .noArgs, h => by simp [CppTemplateArgs.beq] at h

/-- `CppPathItem.beq` implies equality. -/
def CppPathItem.eq_of_beq : ∀ a b : CppPathItem, a.beq b = true → a = b
  | .mk n1 a1, .mk n2 a2, h => by
    simp only [CppPathItem.beq, Bool.and_eq_true, beq_iff_eq] at h
    rw [h.1, CppTemplateArgs.eq_of_beq a1 a2 h.2]

/-- `CppPathRest.beq` implies equality. -/
def CppPathRest.eq_of_beq : ∀ a b : CppPathRest, a.beq b = true → a = b
  | .nil, .nil, _ => rfl
  | .cons i is, .cons j js, h => by
    simp only [CppPathRest.beq, Bool.and_eq_true] at h
    rw [CppPathItem.eq_of_beq i j h.1, CppPathRest.eq_of_beq is js h.2]
  | .nil, .cons _ _, h => by simp [CppPathRest.beq] at h
  | .cons _ _, .nil, h => by simp [CppPathRest.beq] at h

/-- `CppPath.beq` implies equality. -/
def CppPath.eq_of_beq : ∀ a b : CppPath, a.beq b = true → a = b
  | .mk f1 r1, .mk f2 r2, h => by
    simp only [CppPath.beq, Bool.and_eq_true] at h
    rw [CppPathItem.eq_of_beq f1 f2 h.1, CppPathRest.eq_of_beq r1 r2 h.2]

end

instance : DecidableEq CppType := fun a b =>
  decidable_of_iff (a.beq b = true)
    ⟨CppType.eq_of_beq a b, fun h => h ▸ CppType.beq_refl a⟩

instance : DecidableEq CppTypeList := fun a b =>
  decidable_of_iff (a.beq b = true)
    ⟨CppTypeList.eq_of_beq a b, fun h => h ▸ CppTypeList.beq_refl a⟩

instance : DecidableEq CppTemplateArgs := fun a b =>
  decidable_of_iff (a.beq b = true)
    ⟨CppTemplateArgs.eq_of_beq a b, fun h => h ▸ CppTemplateArgs.beq_refl a⟩

instance : DecidableEq CppPathItem := fun a b =>
  decidable_of_iff (a.beq b = true)
    ⟨CppPathItem.eq_of_beq a b, fun h => h ▸ CppPathItem.beq_refl a⟩

instance : DecidableEq CppPathRest := fun a b =>
  decidable_of_iff (a.beq b = true)
    ⟨CppPathRest.eq_of_beq a b, fun h => h ▸ CppPathRest.beq_refl a⟩

instance : DecidableEq CppPath := fun a b =>
  decidable_of_iff (a.beq b = true)
    ⟨CppPath.eq_of_beq a b, fun h => h ▸ CppPath.beq_refl a⟩

instance {ε α : Type} [DecidableEq ε] [DecidableEq α] : DecidableEq (Except ε α)
  | .ok x, .ok y =>
    if h : x = y then .isTrue (by rw [h])
    else .isFalse (fun he => h (Except.ok.injEq x y ▸ he))
  | .ok _, .error _ => .isFalse (fun he => Except.noConfusion he)
  | .error _, .ok _ => .isFalse (fun he => Except.noConfusion he)
  | .error x, .error y =>
    if h : x = y then .isTrue (by rw [h])
    else .isFalse (fun he => h (Except.error.injEq x y ▸ he))

/-- Modelled from the spec: C++ member visibility (`cpp_data.rs` is not
among the provided sources). -/
inductive CppVisibility where
  | Public
  | Protected
  | Private
deriving DecidableEq

/-- Enumerator indicating special cases of C++ methods
(`CppFunctionKind` in `cpp_function.rs`). -/
inductive CppFunctionKind where
  | Regular
  | Constructor
  | Destructor
deriving DecidableEq

/-- Returns true if this method kind is a constructor. -/
def CppFunctionKind.is_constructor : CppFunctionKind → Bool
  | .Constructor => true
  | _ => false

/-- Returns true if this method kind is a destructor. -/
def CppFunctionKind.is_destructor : CppFunctionKind → Bool
  | .Destructor => true
  | _ => false

/-- Returns true if this method kind is a regular method. -/
def CppFunctionKind.is_regular : CppFunctionKind → Bool
  | .Regular => true
  | _ => false

/-- Information about a C++ class member method
(`CppFunctionMemberData` in `cpp_function.rs`). -/
structure CppFunctionMemberData where
  kind : CppFunctionKind
  is_virtual : Bool
  is_pure_virtual : Bool
  is_const : Bool
  is_static : Bool
  visibility : CppVisibility
  is_signal : Bool
  is_slot : Bool
deriving DecidableEq

/-- Modelled from the spec: the operator tag attached to an operator
function (`cpp_operator.rs` is not among the provided sources); only its
decidable equality matters to the embedded operations, so the tag is kept
abstract as a name. -/
inductive CppOperator where
  | tag (name : String)
deriving DecidableEq

/-- Modelled from the spec: cast metadata carried by generated cast
functions (`cpp_ffi_data.rs` is not among the provided sources); no
embedded operation reads it. -/
inductive CppCast where
  | Static
  | Dynamic
  | QObjectCast
deriving DecidableEq

/-- Information about an argument of a C++ method
(`CppFunctionArgument` in `cpp_function.rs`). -/
structure CppFunctionArgument where
  name : String
  argument_type : CppType
  has_default_value : Bool
deriving DecidableEq

/-- Information about a C++ method (`CppFunction` in `cpp_function.rs`). -/
structure CppFunction where
  path : CppPath
  member : Option CppFunctionMemberData
  operator : Option CppOperator
  return_type : CppType
  arguments : List CppFunctionArgument
  allows_variadic_arguments : Bool
  cast : Option CppCast
  declaration_code : Option String
deriving DecidableEq

/-- Modelled from the spec: the receiver kind marker selector of the
receiver encoder (`rust_info.rs` is not among the provided sources). -/
inductive RustQtReceiverType where
  | Signal
  | Slot
deriving DecidableEq

/-- The name of a path segment. -/
def CppPathItem.name : CppPathItem → String
  | .mk n _ => n

/-- The template arguments of a path segment. -/
def CppPathItem.template_arguments : CppPathItem → CppTemplateArgs
  | .mk _ t => t

/-- The last item of the non-empty tail `rest`, or `f` when `rest` is
empty. -/
def CppPathRest.lastFrom : CppPathItem → CppPathRest → CppPathItem
  | f, .nil => f
  | _, .cons i is => CppPathRest.lastFrom i is

/-- Modelled from the spec: the last segment of a path. -/
def CppPath.last : CppPath → CppPathItem
  | .mk f r => CppPathRest.lastFrom f r

/-- All but the last element of a path tail. -/
def CppPathRest.dropLast : CppPathRest → CppPathRest
  | .nil => .nil
  | .cons _ .nil => .nil
  | .cons i (.cons j js) => .cons i (CppPathRest.dropLast (.cons j js))

/-- Modelled from the spec: the parent of a path is all but its last
segment; it does not exist when the path has only one segment. -/
def CppPath.parent : CppPath → Option CppPath
  | .mk _ .nil => none
  | .mk f (.cons i is) => some (.mk f (CppPathRest.dropLast (.cons i is)))

/-- Converts a `CppTypeList` to an ordinary list. -/
def CppTypeList.toList : CppTypeList → List CppType
  | .nil => []
  | .cons t ts => t :: ts.toList

/-- The template arguments of a path segment as an ordinary list
(empty when the segment carries none). -/
def CppPathItem.template_arguments_list (i : CppPathItem) : List CppType :=
  match i.template_arguments with
  | .noArgs => []
  | .args ts => ts.toList

mutual

/-- Modelled from the spec: whether the template parameter `id` occurs,
recursively as a sub-term, inside this type (`cpp_type.rs` is not among
the provided sources). -/
def CppType.contains_template_parameter : CppType → Nat → Bool
  | .Void, _ => false
  | .Primitive _, _ => false
  | .Class p, id => p.contains_template_parameter id
  | .PointerLike _ _ t, id => t.contains_template_parameter id
  | .TemplateParameter i, id => i == id
  | .FunctionPointer r a, id =>
    r.contains_template_parameter id || a.contains_template_parameter id
termination_by structural a _ => a

/-- Occurrence of a template parameter in a type list. -/
def CppTypeList.contains_template_parameter : CppTypeList → Nat → Bool
  | .nil, _ => false
  | .cons t ts, id => t.contains_template_parameter id || ts.contains_template_parameter id
termination_by structural a _ => a

/-- Occurrence of a template parameter in an optional template-argument
list. -/
def CppTemplateArgs.contains_template_parameter : CppTemplateArgs → Nat → Bool
  | .noArgs, _ => false
  | .args l, id => l.contains_template_parameter id
termination_by structural a _ => a

/-- Occurrence of a template parameter in a path segment. -/
def CppPathItem.contains_template_parameter : CppPathItem → Nat → Bool
  | .mk _ ta, id => ta.contains_template_parameter id
termination_by structural a _ => a

/-- Occurrence of a template parameter in a path tail. -/
def CppPathRest.contains_template_parameter : CppPathRest → Nat → Bool
  | .nil, _ => false
  | .cons i is, id => i.contains_template_parameter id || is.contains_template_parameter id
termination_by structural a _ => a

/-- Occurrence of a template parameter in a path. -/
def CppPath.contains_template_parameter : CppPath → Nat → Bool
  | .mk f r, id => f.contains_template_parameter id || r.contains_template_parameter id
termination_by structural a _ => a

end

mutual

/-- Modelled from the spec: the C++ code spelling of a type
(`cpp_type.rs` is not among the provided sources).  A bare template
parameter has no standalone C++ spelling, so the conversion fails on it;
a class path with template arguments is spelled with spaces inside the
angle brackets, as in the spec example for QList. -/
def CppType.to_cpp_code : CppType → Except String String
  | .Void => .ok "void"
  | .Primitive n => .ok n
  | .Class p => p.to_cpp_code
  | .PointerLike c k t =>
    match t.to_cpp_code with
    | .ok inner =>
      .ok ((if c then "const " else "") ++ inner
        ++ (match k with | .Pointer => "*" | .Reference => "&"))
    | .error e => .error e
  | .TemplateParameter _ => .error "template parameters are not supported in C++ code"
  | .FunctionPointer r a =>
    match r.to_cpp_code with
    | .error e => .error e
    | .ok rc =>
      match a.to_cpp_code_list with
      | .error e => .error e
      | .ok ac => .ok (rc ++ " (*)(" ++ String.intercalate ", " ac ++ ")")
termination_by structural a => a

/-- C++ code spellings of a type list, failing on the first failure. -/
def CppTypeList.to_cpp_code_list : CppTypeList → Except String (List String)
  | .nil => .ok []
  | .cons t ts =>
    match t.to_cpp_code with
    | .error e => .error e
    | .ok c =>
      match ts.to_cpp_code_list with
      | .error e => .error e
      | .ok cs => .ok (c :: cs)
termination_by structural a => a

/-- C++ code spelling of a path segment. -/
def CppPathItem.to_cpp_code : CppPathItem → Except String String
  | .mk n .noArgs => .ok n
  | .mk n (.args ts) =>
    match ts.to_cpp_code_list with
    | .error e => .error e
    | .ok cs => .ok (n ++ "< " ++ String.intercalate ", " cs ++ " >")
termination_by structural a => a

/-- C++ code spellings of a path tail. -/
def CppPathRest.to_cpp_code_list : CppPathRest → Except String (List String)
  | .nil => .ok []
  | .cons i is =>
    match i.to_cpp_code with
    | .error e => .error e
    | .ok c =>
      match is.to_cpp_code_list with
      | .error e => .error e
      | .ok cs => .ok (c :: cs)
termination_by structural a => a

/-- C++ code spelling of a path: its segments joined with `::`. -/
def CppPath.to_cpp_code : CppPath → Except String String
  | .mk f r =>
    match f.to_cpp_code with
    | .error e => .error e
    | .ok c =>
      match r.to_cpp_code_list with
      | .error e => .error e
      | .ok cs => .ok (String.intercalate "::" (c :: cs))
termination_by structural a => a

end

/-- One pass of the replacement loop: at each position, if the pattern is a
non-empty prefix of the remaining input, emit the replacement and skip the
pattern, otherwise emit one character.  The fuel argument (instantiated
with the input length) only makes the recursion structural; it never runs
out on a non-empty pattern because every step consumes at least one input
character. -/
def replaceAllAux (pattern repl : List Char) : Nat → List Char → List Char
  | 0, s => s
  | _ + 1, [] => []
  | fuel + 1, c :: cs =>
    if pattern ≠ [] ∧ pattern.isPrefixOf (c :: cs) then
      repl ++ replaceAllAux pattern repl fuel ((c :: cs).drop pattern.length)
    else
      c :: replaceAllAux pattern repl fuel cs
termination_by structural n _ => n

/-- Replacement of every occurrence of `pattern` by `repl`, left to right
and without overlap: the embedding of Rust's `str::replace` on the
character list of a string. -/
def replaceAll (pattern repl s : List Char) : List Char :=
  replaceAllAux pattern repl s.length s

/-- Modelled from the spec: fail-fast mapping of a fallible function over a
list (the `map_if_ok` utility of `ritual_common`, not among the provided
sources). -/
def mapIfOk {α β : Type} (f : α → Except String β) : List α → Except String (List β)
  | [] => .ok []
  | x :: xs =>
    match f x with
    | .error e => .error e
    | .ok y =>
      match mapIfOk f xs with
      | .error e => .error e
      | .ok ys => .ok (y :: ys)

/-- `CppFunction::argument_types_equal`: same argument count, same variadic
flag, and pairwise equal argument types. -/
def CppFunction.argument_types_equal (a b : CppFunction) : Bool :=
  if a.arguments.length ≠ b.arguments.length then false
  else if a.allows_variadic_arguments ≠ b.allows_variadic_arguments then false
  else (a.arguments.zip b.arguments).all fun ij =>
    decide (ij.1.argument_type = ij.2.argument_type)

/-- `CppFunctionMemberData::is_same`: agreement on kind, constness and
staticness only. -/
def CppFunctionMemberData.is_same (a b : CppFunctionMemberData) : Bool :=
  decide (a.kind = b.kind) && decide (a.is_const = b.is_const)
    && decide (a.is_static = b.is_static)

/-- `CppFunction::is_same`: equal paths, equivalent member data, equal
operators, equal return types and equal argument types. -/
def CppFunction.is_same (a b : CppFunction) : Bool :=
  let member_is_same :=
    match a.member, b.member with
    | some m1, some m2 => m1.is_same m2
    | none, none => true
    | _, _ => false
  decide (a.path = b.path) && member_is_same && decide (a.operator = b.operator)
    && decide (a.return_type = b.return_type) && a.argument_types_equal b

/-- `CppFunction::class_path`: the parent of the function's own path; fails
on a free function, and on a member whose path is not nested. -/
def CppFunction.class_path (f : CppFunction) : Except String CppPath :=
  match f.member with
  | some _ =>
    match f.path.parent with
    | some p => .ok p
    | none => .error "CppFunction is a class member but its path is not nested."
  | none => .error "not a member function"

/-- `CppFunction::is_constructor`: reads the member kind, false for free
functions. -/
def CppFunction.is_constructor (f : CppFunction) : Bool :=
  match f.member with
  | some info => info.kind.is_constructor
  | none => false

/-- `CppFunction::is_destructor`: reads the member kind, false for free
functions. -/
def CppFunction.is_destructor (f : CppFunction) : Bool :=
  match f.member with
  | some info => info.kind.is_destructor
  | none => false

/-- `CppFunction::is_static_member`: reads `is_static`, false for free
functions. -/
def CppFunction.is_static_member (f : CppFunction) : Bool :=
  match f.member with
  | some info => info.is_static
  | none => false

/-- `CppFunction::is_virtual`: reads `is_virtual`, false for free
functions. -/
def CppFunction.is_virtual (f : CppFunction) : Bool :=
  match f.member with
  | some info => info.is_virtual
  | none => false

/-- `CppFunction::is_private`: visibility is `Private`, false for free
functions. -/
def CppFunction.is_private (f : CppFunction) : Bool :=
  match f.member with
  | some info => decide (info.visibility = CppVisibility.Private)
  | none => false

/-- `CppFunction::is_signal`: reads `is_signal`, false for free
functions. -/
def CppFunction.is_signal (f : CppFunction) : Bool :=
  match f.member with
  | some info => info.is_signal
  | none => false

/-- `CppFunction::is_slot`: reads `is_slot`, false for free functions. -/
def CppFunction.is_slot (f : CppFunction) : Bool :=
  match f.member with
  | some info => info.is_slot
  | none => false

/-- Modelled from the spec: construction of a reference type
(`CppType::new_reference` in `cpp_type.rs`, not among the provided
sources): a pointer-like wrapper of reference kind. -/
def CppType.new_reference (is_const : Bool) (target : CppType) : CppType :=
  .PointerLike is_const .Reference target

/-- `CppFunction::is_copy_constructor`: a constructor with exactly one
argument whose type is a const reference to the owning class.  The source
unwraps `class_path()`; the panic on a member with a non-nested path is
modelled as `none`. -/
def CppFunction.is_copy_constructor (f : CppFunction) : Option Bool :=
  if f.is_constructor = false then some false
  else
    match f.arguments with
    | [arg0] =>
      match f.class_path with
      | .ok p =>
        some (decide (CppType.new_reference true (.Class p) = arg0.argument_type))
      | .error _ => none
    | _ => some false

/-- `CppFunction::patch_receiver_argument_type`: rewrites the literal
substring for the QList-of-QModelIndex spelling to `QModelIndexList`. -/
def CppFunction.patch_receiver_argument_type (type_text : String) : String :=
  ⟨replaceAll "QList< QModelIndex >".data "QModelIndexList".data type_text.data⟩

/-- `CppFunction::receiver_id_from_data`: the kind marker, the name, and
the parenthesized comma-joined patched argument spellings. -/
def CppFunction.receiver_id_from_data (receiver_type : RustQtReceiverType)
    (name : String) (arguments : List CppType) : Except String String :=
  let type_num :=
    match receiver_type with
    | .Signal => "2"
    | .Slot => "1"
  match mapIfOk CppType.to_cpp_code arguments with
  | .error e => .error e
  | .ok codes =>
    let joined := String.intercalate ","
      (codes.map fun arg => CppFunction.patch_receiver_argument_type arg)
    .ok (type_num ++ name ++ "(" ++ joined ++ ")")

/-- `CppFunction::receiver_id`: the identifier used in `QObject::connect`
for this signal or slot. -/
def CppFunction.receiver_id (f : CppFunction) : Except String String :=
  match f.member with
  | some info =>
    if info.is_slot then
      CppFunction.receiver_id_from_data .Slot f.path.last.name
        (f.arguments.map fun arg => arg.argument_type)
    else if info.is_signal then
      CppFunction.receiver_id_from_data .Signal f.path.last.name
        (f.arguments.map fun arg => arg.argument_type)
    else .error "not a signal or slot"
  | none => .error "not a class method"

/-- `CppFunction::is_operator`. -/
def CppFunction.is_operator (f : CppFunction) : Bool :=
  f.operator.isSome

/-- `CppFunction::all_involved_types`: the implicit receiver pointer (for a
member), the argument types, the return type and the template arguments of
the last path segment, in this order.  The source unwraps `class_path()`;
the panic on a member with a non-nested path is modelled as `none`. -/
def CppFunction.all_involved_types (f : CppFunction) : Option (List CppType) :=
  match f.member with
  | some class_membership =>
    match f.class_path with
    | .ok p =>
      some (CppType.PointerLike class_membership.is_const .Pointer (.Class p)
        :: (f.arguments.map fun x => x.argument_type)
        ++ [f.return_type] ++ f.path.last.template_arguments_list)
    | .error _ => none
  | none =>
    some ((f.arguments.map fun x => x.argument_type)
      ++ [f.return_type] ++ f.path.last.template_arguments_list)

/-- `CppFunction::can_infer_template_arguments`: every template-parameter
typed template argument of the last path segment occurs inside some
argument type. -/
def CppFunction.can_infer_template_arguments (f : CppFunction) : Bool :=
  match f.path.last.template_arguments with
  | .args ts => ts.toList.all fun t =>
    match t with
    | .TemplateParameter param =>
      f.arguments.any fun arg => arg.argument_type.contains_template_parameter param
    | _ => true
  | .noArgs => true

/-- Modelled from the spec: the three function kinds of the documentation
consumer's input (`rust_info.rs` is not among the provided sources); their
payloads are irrelevant to the slot-wrapper branch and are omitted. -/
inductive RustFunctionKind where
  | FfiWrapper
  | SignalOrSlotGetter
  | FfiFunction
deriving DecidableEq

/-- The slot-wrapper method documentation rules of `function_doc`
(`doc_formatter.rs`): fixed texts for the known method names, empty output
for the allowlisted metaobject methods, and a failure for any other
name. -/
def slot_wrapper_method_doc (name : String) : Except String String :=
  if name = "custom_slot" then
    .ok "Calls the slot directly, invoking the assigned handler (if any).\n\n"
  else if name = "new" then
    .ok "Creates a new object.\n\n"
  else if name = "set" then
    .ok ("Assigns `func` as the signal handler.\n\n"
      ++ "`func` will be called each time a connected signal is emitted. "
      ++ "Any previously assigned function will be deregistered. "
      ++ "Passing `None` will deregister the handler without setting a new one.\n\n")
  else if name = "meta_object" ∨ name = "qt_metacall" ∨ name = "qt_metacast"
      ∨ name = "static_meta_object" ∨ name = "tr" ∨ name = "tr_utf8" then
    .ok ""
  else .error ("unknown slot wrapper method: " ++ name)

/-- The slot-wrapper branch of `function_doc` (`doc_formatter.rs`): when
the source FFI item is a slot wrapper, the function is not an FFI function
and is not a trait impl, the documentation is produced by the slot-wrapper
rules and the rest of `function_doc` is skipped (`some result`); otherwise
the branch is not taken (`none`).  The two database-derived facts are
passed in as the booleans `has_source_slot_wrapper` and `is_trait_impl`. -/
def function_doc_slot_wrapper_branch (has_source_slot_wrapper : Bool)
    (kind : RustFunctionKind) (is_trait_impl : Bool)
    (last_path_name : String) : Option (Except String String) :=
  if has_source_slot_wrapper && decide (kind ≠ RustFunctionKind.FfiFunction)
      && !is_trait_impl then
    some (slot_wrapper_method_doc last_path_name)
  else none

/-- Pairwise type equality over a zip of equally long argument lists is
equality of the mapped type lists. -/
theorem zip_all_types_iff :
    ∀ xs ys : List CppFunctionArgument, xs.length = ys.length →
      (((xs.zip ys).all fun ij => decide (ij.1.argument_type = ij.2.argument_type)) = true ↔
        xs.map (fun x => x.argument_type) = ys.map (fun x => x.argument_type))
  | [], [], _ => by simp
  | x :: xs, y :: ys, h => by
    simp only [List.zip_cons_cons, List.all_cons, Bool.and_eq_true, decide_eq_true_eq,
      List.map_cons, List.cons.injEq]
    rw [zip_all_types_iff xs ys (by simpa using h)]
  | [], _ :: _, h => by simp at h
  | _ :: _, [], h => by simp at h

/-- Characterization of `argument_types_equal`: equal lengths, equal
variadic flags and equal type lists. -/
theorem argument_types_equal_iff (a b : CppFunction) :
    a.argument_types_equal b = true ↔
      a.arguments.length = b.arguments.length ∧
      a.allows_variadic_arguments = b.allows_variadic_arguments ∧
      a.arguments.map (fun x => x.argument_type) = b.arguments.map (fun x => x.argument_type) := by
  unfold CppFunction.argument_types_equal
  by_cases hl : a.arguments.length = b.arguments.length
  · by_cases hv : a.allows_variadic_arguments = b.allows_variadic_arguments
    · simp [hl, hv, zip_all_types_iff a.arguments b.arguments hl]
    · simp [hl, hv]
  · simp [hl]

/-- The member-data equivalence used by `is_same`, stated as the spec
states it: both absent, or both present and agreeing on kind, constness
and staticness. -/
def MemberEquiv : Option CppFunctionMemberData → Option CppFunctionMemberData → Prop
  | some m1, some m2 => m1.kind = m2.kind ∧ m1.is_const = m2.is_const ∧ m1.is_static = m2.is_static
  | none, none => True
  | _, _ => False

/-- Characterization of `is_same`: equal paths, equivalent member data,
equal operators, equal return types, equal argument types. -/
theorem is_same_iff (a b : CppFunction) :
    a.is_same b = true ↔
      a.path = b.path ∧ MemberEquiv a.member b.member ∧ a.operator = b.operator ∧
        a.return_type = b.return_type ∧ a.argument_types_equal b = true := by
  unfold CppFunction.is_same
  cases ha : a.member <;> cases hb : b.member <;>
    simp [MemberEquiv, CppFunctionMemberData.is_same, and_assoc]

/-- `MemberEquiv` is symmetric. -/
theorem memberEquiv_symm (x y : Option CppFunctionMemberData) :
    MemberEquiv x y → MemberEquiv y x := by
  cases x <;> cases y <;> simp [MemberEquiv] <;> tauto

/-- `argument_types_equal` is symmetric as a boolean function. -/
theorem argument_types_equal_symm (a b : CppFunction) :
    a.argument_types_equal b = b.argument_types_equal a := by
  rw [Bool.eq_iff_iff, argument_types_equal_iff, argument_types_equal_iff]
  tauto

/-- `argument_types_equal` is reflexive. -/
theorem argument_types_equal_refl (a : CppFunction) :
    a.argument_types_equal a = true := by
  rw [argument_types_equal_iff]
  exact ⟨rfl, rfl, rfl⟩

/-- C2: `argument_types_equal(a, b)` is true exactly when the two
declarations have the same argument count, the same variadic flag and
pairwise equal argument types in order; argument names and default-value
flags do not influence it, and the relation is reflexive and symmetric. -/
theorem C2_argument_types_equal_characterization :
    (∀ a b : CppFunction, a.argument_types_equal b = true ↔
      a.arguments.length = b.arguments.length ∧
      a.allows_variadic_arguments = b.allows_variadic_arguments ∧
      a.arguments.map (fun x => x.argument_type) = b.arguments.map (fun x => x.argument_type)) ∧
    (∀ (a b : CppFunction) (args2 : List CppFunctionArgument),
      args2.map (fun x => x.argument_type) = a.arguments.map (fun x => x.argument_type) →
      CppFunction.argument_types_equal { a with arguments := args2 } b =
        a.argument_types_equal b) ∧
    (∀ a : CppFunction, a.argument_types_equal a = true) ∧
    (∀ a b : CppFunction, a.argument_types_equal b = b.argument_types_equal a) := by
  refine ⟨argument_types_equal_iff, ?_, argument_types_equal_refl, argument_types_equal_symm⟩
  intro a b args2 hmap
  have hlen : args2.length = a.arguments.length := by
    have := congrArg List.length hmap
    simpa using this
  rw [Bool.eq_iff_iff, argument_types_equal_iff, argument_types_equal_iff]
  constructor
  · rintro ⟨h1, h2, h3⟩
    exact ⟨by simpa [hlen] using h1, h2, by rw [← hmap]; exact h3⟩
  · rintro ⟨h1, h2, h3⟩
    exact ⟨by simpa [hlen] using h1, h2, by simpa [hmap] using h3⟩

/-- A concrete free function with two arguments, used by witnesses. -/
def exFreeTwoArgs : CppFunction :=
  { path := .mk (.mk "f" .noArgs) .nil
    member := none
    operator := none
    return_type := .Class (.mk (.mk "T" .noArgs) .nil)
    arguments :=
      [ { name := "x", argument_type := .Class (.mk (.mk "A" .noArgs) .nil), has_default_value := false }
      , { name := "y", argument_type := .Class (.mk (.mk "B" .noArgs) .nil), has_default_value := false } ]
    allows_variadic_arguments := false
    cast := none
    declaration_code := none }

/-- Witness for C2: the name/default-irrelevance part applied at a
renaming of the two arguments of a concrete function. -/
theorem C2_witness :
    ([ { name := "u", argument_type := .Class (.mk (.mk "A" .noArgs) .nil), has_default_value := true }
     , { name := "v", argument_type := .Class (.mk (.mk "B" .noArgs) .nil), has_default_value := true } ] :
        List CppFunctionArgument).map (fun x => x.argument_type) =
      exFreeTwoArgs.arguments.map (fun x => x.argument_type) ∧
    CppFunction.argument_types_equal
      { exFreeTwoArgs with arguments :=
        [ { name := "u", argument_type := .Class (.mk (.mk "A" .noArgs) .nil), has_default_value := true }
        , { name := "v", argument_type := .Class (.mk (.mk "B" .noArgs) .nil), has_default_value := true } ] }
      exFreeTwoArgs = exFreeTwoArgs.argument_types_equal exFreeTwoArgs :=
  ⟨by decide, C2_argument_types_equal_characterization.2.1 exFreeTwoArgs exFreeTwoArgs _ (by decide)⟩

/-- `MemberEquiv` is reflexive. -/
theorem memberEquiv_refl (x : Option CppFunctionMemberData) : MemberEquiv x x := by
  cases x <;> simp [MemberEquiv]

/-- C1: `is_same(a, b)` is true exactly when the paths are equal, the
member data is equivalent (both absent, or both present and agreeing on
kind, constness and staticness, with virtuality, visibility and the
signal/slot flags not compared), the operators are equal, the return types
are equal and `argument_types_equal` holds; consequently `is_same` is
reflexive, symmetric, and unchanged by altering `is_virtual`,
`is_pure_virtual`, `visibility`, `is_signal` or `is_slot`. -/
theorem C1_is_same_characterization :
    (∀ a b : CppFunction, a.is_same b = true ↔
      a.path = b.path ∧ MemberEquiv a.member b.member ∧ a.operator = b.operator ∧
        a.return_type = b.return_type ∧ a.argument_types_equal b = true) ∧
    (∀ a : CppFunction, a.is_same a = true) ∧
    (∀ a b : CppFunction, a.is_same b = b.is_same a) ∧
    (∀ (a : CppFunction) (m m2 : CppFunctionMemberData),
      a.member = some m → m2.kind = m.kind → m2.is_const = m.is_const →
      m2.is_static = m.is_static →
      a.is_same { a with member := some m2 } = true) := by
  refine ⟨is_same_iff, ?_, ?_, ?_⟩
  · intro a
    rw [is_same_iff]
    exact ⟨rfl, memberEquiv_refl _, rfl, rfl, argument_types_equal_refl a⟩
  · intro a b
    rw [Bool.eq_iff_iff, is_same_iff, is_same_iff]
    constructor
    · rintro ⟨h1, h2, h3, h4, h5⟩
      exact ⟨h1.symm, memberEquiv_symm _ _ h2, h3.symm, h4.symm,
        by rw [argument_types_equal_symm]; exact h5⟩
    · rintro ⟨h1, h2, h3, h4, h5⟩
      exact ⟨h1.symm, memberEquiv_symm _ _ h2, h3.symm, h4.symm,
        by rw [argument_types_equal_symm] at h5; exact h5⟩
  · intro a m m2 hm hk hc hs
    rw [is_same_iff]
    refine ⟨rfl, ?_, rfl, rfl, ?_⟩
    · rw [hm]
      exact ⟨hk.symm, hc.symm, hs.symm⟩
    · rw [argument_types_equal_iff]
      exact ⟨rfl, rfl, rfl⟩

/-- The member data of a concrete regular const member method, used by
witnesses. -/
def exConstMemberData : CppFunctionMemberData :=
  { kind := .Regular
    is_virtual := false
    is_pure_virtual := false
    is_const := true
    is_static := false
    visibility := .Public
    is_signal := false
    is_slot := false }

/-- A concrete regular const member method `C::m(A)`, used by witnesses. -/
def exConstMethod : CppFunction :=
  { path := .mk (.mk "C" .noArgs) (.cons (.mk "m" .noArgs) .nil)
    member := some exConstMemberData
    operator := none
    return_type := .Void
    arguments :=
      [ { name := "x", argument_type := .Class (.mk (.mk "A" .noArgs) .nil), has_default_value := false } ]
    allows_variadic_arguments := false
    cast := none
    declaration_code := none }

/-- The member data of `exConstMethod` with virtuality, visibility and the
signal/slot flags all altered. -/
def exAlteredMember : CppFunctionMemberData :=
  { kind := .Regular
    is_virtual := true
    is_pure_virtual := true
    is_const := true
    is_static := false
    visibility := .Private
    is_signal := true
    is_slot := true }

/-- Witness for C1: flag-insensitivity applied at a concrete method whose
virtuality, visibility and signal/slot flags are all flipped. -/
theorem C1_witness :
    exConstMethod.member = some exConstMemberData ∧
    exConstMethod.is_same { exConstMethod with member := some exAlteredMember } = true :=
  ⟨by decide, C1_is_same_characterization.2.2.2 exConstMethod exConstMemberData exAlteredMember
    (by decide) (by decide) (by decide) (by decide)⟩

/-- C8: on a free function (member absent) every member-only predicate is
false: `is_constructor`, `is_destructor`, `is_static_member`, `is_virtual`,
`is_private`, `is_signal` and `is_slot`. -/
theorem C8_free_function_predicates (f : CppFunction) (h : f.member = none) :
    f.is_constructor = false ∧ f.is_destructor = false ∧ f.is_static_member = false ∧
    f.is_virtual = false ∧ f.is_private = false ∧ f.is_signal = false ∧
    f.is_slot = false := by
  unfold CppFunction.is_constructor CppFunction.is_destructor CppFunction.is_static_member
    CppFunction.is_virtual CppFunction.is_private CppFunction.is_signal CppFunction.is_slot
  rw [h]
  exact ⟨rfl, rfl, rfl, rfl, rfl, rfl, rfl⟩

/-- Witness for C8: the predicates applied at a concrete free function. -/
theorem C8_witness :
    exFreeTwoArgs.member = none ∧
    (exFreeTwoArgs.is_constructor = false ∧ exFreeTwoArgs.is_destructor = false ∧
      exFreeTwoArgs.is_static_member = false ∧ exFreeTwoArgs.is_virtual = false ∧
      exFreeTwoArgs.is_private = false ∧ exFreeTwoArgs.is_signal = false ∧
      exFreeTwoArgs.is_slot = false) :=
  ⟨by decide, C8_free_function_predicates exFreeTwoArgs (by decide)⟩

/-- C5: for a declaration whose path nests under its owning class,
`is_copy_constructor` answers exactly "is a constructor and has exactly
one argument whose type is a const reference to the owning class"; it is
false for any other argument count or argument type. -/
theorem C5_is_copy_constructor (f : CppFunction) (p : CppPath)
    (h : f.path.parent = some p) :
    f.is_copy_constructor =
      some (f.is_constructor &&
        decide (f.arguments.map (fun x => x.argument_type) =
          [CppType.new_reference true (.Class p)])) := by
  unfold CppFunction.is_copy_constructor
  by_cases hc : f.is_constructor = false
  · simp [hc]
  · have hc2 : f.is_constructor = true := by
      cases hcc : f.is_constructor
      · exact absurd hcc hc
      · rfl
    have hmem : ∃ m, f.member = some m := by
      unfold CppFunction.is_constructor at hc2
      cases hm : f.member
      · rw [hm] at hc2; cases hc2
      · exact ⟨_, rfl⟩
    obtain ⟨m, hm⟩ := hmem
    have hcp : f.class_path = .ok p := by
      unfold CppFunction.class_path
      rw [hm, h]
    rw [hc2, if_neg (by simp)]
    cases hargs : f.arguments with
    | nil => simp
    | cons a0 rest =>
      cases rest with
      | nil =>
        rw [hcp]
        simp only [List.map_cons, List.map_nil, Option.some.injEq, Bool.true_and]
        rw [decide_eq_decide]
        constructor
        · intro he
          simp [he]
        · intro he
          simp only [List.cons.injEq, and_true] at he
          exact he.symm
      | cons a1 rest2 => simp

/-- The owning class path of the concrete copy constructor below. -/
def exClassCPath : CppPath := .mk (.mk "C" .noArgs) .nil

/-- A concrete copy constructor `C::C(const C&)`, used by witnesses. -/
def exCopyCtor : CppFunction :=
  { path := .mk (.mk "C" .noArgs) (.cons (.mk "C" .noArgs) .nil)
    member := some
      { kind := .Constructor
        is_virtual := false
        is_pure_virtual := false
        is_const := false
        is_static := false
        visibility := .Public
        is_signal := false
        is_slot := false }
    operator := none
    return_type := .Void
    arguments :=
      [ { name := "other", argument_type := CppType.new_reference true (.Class exClassCPath),
          has_default_value := false } ]
    allows_variadic_arguments := false
    cast := none
    declaration_code := none }

/-- Witness for C5: the characterization applied at the concrete copy
constructor `C::C(const C&)`. -/
theorem C5_witness :
    exCopyCtor.path.parent = some exClassCPath ∧
    exCopyCtor.is_copy_constructor =
      some (exCopyCtor.is_constructor &&
        decide (exCopyCtor.arguments.map (fun x => x.argument_type) =
          [CppType.new_reference true (.Class exClassCPath)])) :=
  ⟨by decide, C5_is_copy_constructor exCopyCtor exClassCPath (by decide)⟩

/-- The const member method `T C::m(A)`: `exConstMethod` with return type
`T`, used by the C7 example. -/
def exConstMethodT : CppFunction :=
  { exConstMethod with return_type := .Class (.mk (.mk "T" .noArgs) .nil) }

/-- C7: `all_involved_types` is, in order, the implicit receiver pointer
for a member (a pointer to the owning class carrying the method's
constness), the argument types in declaration order, the return type, and
the template arguments of the last path segment; a free function
`T f(A, B)` yields `[A, B, T]` and a const member method `T C::m(A)`
yields `[const-pointer-to-C, A, T]`. -/
theorem C7_all_involved_types :
    (∀ f : CppFunction, f.member = none →
      f.all_involved_types = some ((f.arguments.map fun x => x.argument_type)
        ++ [f.return_type] ++ f.path.last.template_arguments_list)) ∧
    (∀ (f : CppFunction) (m : CppFunctionMemberData) (p : CppPath),
      f.member = some m → f.path.parent = some p →
      f.all_involved_types = some (CppType.PointerLike m.is_const .Pointer (.Class p)
        :: ((f.arguments.map fun x => x.argument_type)
          ++ [f.return_type] ++ f.path.last.template_arguments_list))) ∧
    exFreeTwoArgs.all_involved_types = some
      [ .Class (.mk (.mk "A" .noArgs) .nil)
      , .Class (.mk (.mk "B" .noArgs) .nil)
      , .Class (.mk (.mk "T" .noArgs) .nil) ] ∧
    exConstMethodT.all_involved_types = some
      [ .PointerLike true .Pointer (.Class (.mk (.mk "C" .noArgs) .nil))
      , .Class (.mk (.mk "A" .noArgs) .nil)
      , .Class (.mk (.mk "T" .noArgs) .nil) ] := by
  refine ⟨?_, ?_, by decide, by decide⟩
  · intro f h
    unfold CppFunction.all_involved_types
    rw [h]
  · intro f m p hm hp
    unfold CppFunction.all_involved_types
    have hcp : f.class_path = .ok p := by
      unfold CppFunction.class_path
      rw [hm, hp]
    rw [hm, hcp]
    rfl

/-- Witness for C7: the member part applied at the concrete const member
method `T C::m(A)`. -/
theorem C7_witness :
    exConstMethodT.member = some exConstMemberData ∧
    exConstMethodT.path.parent = some exClassCPath ∧
    exConstMethodT.all_involved_types = some
      (CppType.PointerLike exConstMemberData.is_const .Pointer (.Class exClassCPath)
        :: ((exConstMethodT.arguments.map fun x => x.argument_type)
          ++ [exConstMethodT.return_type]
          ++ exConstMethodT.path.last.template_arguments_list)) :=
  ⟨by decide, by decide,
    C7_all_involved_types.2.1 exConstMethodT exConstMemberData exClassCPath
      (by decide) (by decide)⟩

/-- The template-parameter type `T` of the C6 examples. -/
def tParam0 : CppType := .TemplateParameter 0

/-- The template function `T find<T>()` with no regular arguments, used by
the C6 example. -/
def exFindNoArgs : CppFunction :=
  { path := .mk (.mk "find" (.args (.cons tParam0 .nil))) .nil
    member := none
    operator := none
    return_type := tParam0
    arguments := []
    allows_variadic_arguments := false
    cast := none
    declaration_code := none }

/-- The template function `T find<T>(const char* name)`, used by the C6
example. -/
def exFindCharPtr : CppFunction :=
  { exFindNoArgs with arguments :=
      [ { name := "name", argument_type := .PointerLike true .Pointer (.Primitive "char"),
          has_default_value := false } ] }

/-- The template function `void sort<T>(Container<T>&)`, used by the C6
example. -/
def exSortContainer : CppFunction :=
  { path := .mk (.mk "sort" (.args (.cons tParam0 .nil))) .nil
    member := none
    operator := none
    return_type := .Void
    arguments :=
      [ { name := "container"
          argument_type := .PointerLike false .Reference
            (.Class (.mk (.mk "Container" (.args (.cons tParam0 .nil))) .nil))
          has_default_value := false } ]
    allows_variadic_arguments := false
    cast := none
    declaration_code := none }

/-- C6: `can_infer_template_arguments` is true exactly when every
template-parameter-typed template argument of the last path segment
occurs, recursively as a sub-term, inside at least one regular argument's
type; it is trivially true without template arguments; `T find<T>()` and
`T find<T>(const char* name)` answer false and `void sort<T>(Container<T>&)`
answers true. -/
theorem C6_can_infer_template_arguments :
    (∀ f : CppFunction, f.can_infer_template_arguments = true ↔
      ∀ t ∈ f.path.last.template_arguments_list, ∀ param : Nat,
        t = .TemplateParameter param →
        ∃ arg ∈ f.arguments, arg.argument_type.contains_template_parameter param = true) ∧
    (∀ f : CppFunction, f.path.last.template_arguments = .noArgs →
      f.can_infer_template_arguments = true) ∧
    exFindNoArgs.can_infer_template_arguments = false ∧
    exFindCharPtr.can_infer_template_arguments = false ∧
    exSortContainer.can_infer_template_arguments = true := by
  refine ⟨?_, ?_, by decide, by decide, by decide⟩
  · intro f
    unfold CppFunction.can_infer_template_arguments CppPathItem.template_arguments_list
    cases h : f.path.last.template_arguments with
    | noArgs => simp
    | args ts =>
      simp only [List.all_eq_true, List.any_eq_true]
      constructor
      · intro H t ht param hp
        have h2 := H t ht
        rw [hp] at h2
        simpa [List.any_eq_true] using h2
      · intro H t ht
        cases t with
        | TemplateParameter param =>
          simpa [List.any_eq_true] using H _ ht param rfl
        | Void => rfl
        | Primitive n => rfl
        | Class p => rfl
        | PointerLike c k tt => rfl
        | FunctionPointer r a => rfl
  · intro f h
    unfold CppFunction.can_infer_template_arguments
    rw [h]

/-- Witness for C6: the trivial part applied at a concrete declaration
without template arguments. -/
theorem C6_witness :
    exFreeTwoArgs.path.last.template_arguments = .noArgs ∧
    exFreeTwoArgs.can_infer_template_arguments = true :=
  ⟨by decide, C6_can_infer_template_arguments.2.1 exFreeTwoArgs (by decide)⟩

/-- The spec's `NotASignalOrSlot` failure kind: it covers both failure
sites of `receiver_id`, the one for a member that is neither a signal nor
a slot and the one for a free function. -/
def NotASignalOrSlotError (e : String) : Prop :=
  e = "not a signal or slot" ∨ e = "not a class method"

/-- C4: `receiver_id` fails with the `NotASignalOrSlot` error kind when
the member data is absent or neither `is_signal` nor `is_slot` is set;
otherwise it delegates to `receiver_id_from_data` on the last path
segment's name and the argument types, with the slot marker taking
precedence when both flags are set. -/
theorem C4_receiver_id_dispatch :
    (∀ f : CppFunction,
      (f.member = none ∨
        ∃ m, f.member = some m ∧ m.is_slot = false ∧ m.is_signal = false) →
      ∃ e, f.receiver_id = .error e ∧ NotASignalOrSlotError e) ∧
    (∀ (f : CppFunction) (m : CppFunctionMemberData),
      f.member = some m → m.is_slot = true →
      f.receiver_id = CppFunction.receiver_id_from_data .Slot f.path.last.name
        (f.arguments.map fun arg => arg.argument_type)) ∧
    (∀ (f : CppFunction) (m : CppFunctionMemberData),
      f.member = some m → m.is_slot = false → m.is_signal = true →
      f.receiver_id = CppFunction.receiver_id_from_data .Signal f.path.last.name
        (f.arguments.map fun arg => arg.argument_type)) := by
  refine ⟨?_, ?_, ?_⟩
  · intro f h
    unfold CppFunction.receiver_id
    rcases h with h | ⟨m, hm, hslot, hsig⟩
    · rw [h]
      exact ⟨_, rfl, Or.inr rfl⟩
    · rw [hm]
      simp only [hslot, hsig, Bool.false_eq_true, if_false]
      exact ⟨_, rfl, Or.inl rfl⟩
  · intro f m hm hslot
    unfold CppFunction.receiver_id
    rw [hm]
    simp [hslot]
  · intro f m hm hslot hsig
    unfold CppFunction.receiver_id
    rw [hm]
    simp [hslot, hsig]

/-- Witness for C4: the failure part applied at the concrete plain regular
const method, whose member data is present. -/
theorem C4_witness :
    (exConstMethod.member = some exConstMemberData ∧
      exConstMemberData.is_slot = false ∧ exConstMemberData.is_signal = false) ∧
    ∃ e, exConstMethod.receiver_id = .error e ∧ NotASignalOrSlotError e :=
  ⟨⟨by decide, by decide, by decide⟩,
    C4_receiver_id_dispatch.1 exConstMethod
      (Or.inr ⟨exConstMemberData, by decide, by decide, by decide⟩)⟩

/-- C3: `receiver_id_from_data` produces the kind marker (`"2"` signal,
`"1"` slot) followed by the name and the parenthesized comma-joined
argument spellings, each patched by the QList-of-QModelIndex substitution
before joining; the substitution rewrites every occurrence inside an
individual spelling; and the spec's concrete slot example encodes to
`"1valueChanged(int,QModelIndexList)"`. -/
theorem C3_receiver_id_from_data :
    (∀ (receiver_type : RustQtReceiverType) (name : String)
        (arguments : List CppType) (codes : List String),
      mapIfOk CppType.to_cpp_code arguments = .ok codes →
      CppFunction.receiver_id_from_data receiver_type name arguments =
        .ok ((match receiver_type with | .Signal => "2" | .Slot => "1")
          ++ name ++ "("
          ++ String.intercalate ","
            (codes.map fun c => CppFunction.patch_receiver_argument_type c)
          ++ ")")) ∧
    CppFunction.patch_receiver_argument_type "QList< QModelIndex >" = "QModelIndexList" ∧
    CppFunction.patch_receiver_argument_type
        "void (*)(QList< QModelIndex >, QList< QModelIndex >)"
      = "void (*)(QModelIndexList, QModelIndexList)" ∧
    CppFunction.receiver_id_from_data .Slot "valueChanged"
        [ .Primitive "int"
        , .Class (.mk (.mk "QList" (.args (.cons
            (.Class (.mk (.mk "QModelIndex" .noArgs) .nil)) .nil))) .nil) ]
      = .ok "1valueChanged(int,QModelIndexList)" := by
  refine ⟨?_, by decide, by decide, by decide⟩
  · intro rt n args codes h
    unfold CppFunction.receiver_id_from_data
    rw [h]

/-- `mapIfOk` succeeds exactly when the function succeeds on every
element. -/
theorem mapIfOk_ok_iff {α β : Type} (g : α → Except String β) :
    ∀ xs : List α, (∃ ys, mapIfOk g xs = .ok ys) ↔ ∀ x ∈ xs, ∃ y, g x = .ok y
  | [] => by simp [mapIfOk]
  | x :: xs => by
    constructor
    · rintro ⟨ys, h⟩
      unfold mapIfOk at h
      cases hg : g x with
      | error e =>
        rw [hg] at h
        exact absurd h (by simp)
      | ok y =>
        rw [hg] at h
        cases hm : mapIfOk g xs with
        | error e =>
          rw [hm] at h
          exact absurd h (by simp)
        | ok ys2 =>
          intro z hz
          rcases List.mem_cons.mp hz with rfl | hz2
          · exact ⟨y, hg⟩
          · exact (mapIfOk_ok_iff g xs).mp ⟨ys2, hm⟩ z hz2
    · intro H
      obtain ⟨y, hy⟩ := H x (List.mem_cons_self x xs)
      obtain ⟨ys, hys⟩ :=
        (mapIfOk_ok_iff g xs).mpr fun z hz => H z (List.mem_cons_of_mem x hz)
      refine ⟨y :: ys, ?_⟩
      unfold mapIfOk
      rw [hy, hys]

/-- `receiver_id_from_data` succeeds exactly when every argument type has
a C++ spelling. -/
theorem receiver_id_from_data_ok_iff (rt : RustQtReceiverType) (n : String)
    (args : List CppType) :
    (∃ s, CppFunction.receiver_id_from_data rt n args = .ok s) ↔
      ∀ t ∈ args, ∃ c, t.to_cpp_code = .ok c := by
  rw [← mapIfOk_ok_iff CppType.to_cpp_code args]
  unfold CppFunction.receiver_id_from_data
  constructor
  · rintro ⟨s, h⟩
    cases hm : mapIfOk CppType.to_cpp_code args with
    | error e =>
      rw [hm] at h
      exact absurd h (by simp)
    | ok codes => exact ⟨codes, rfl⟩
  · rintro ⟨codes, h⟩
    rw [h]
    exact ⟨_, rfl⟩

/-- The member data of a concrete signal, used by the C10 example. -/
def exSignalMemberData : CppFunctionMemberData :=
  { kind := .Regular
    is_virtual := false
    is_pure_virtual := false
    is_const := false
    is_static := false
    visibility := .Public
    is_signal := true
    is_slot := false }

/-- A concrete signal `C::valueChanged(T)` whose single argument type is a
bare template parameter, used by the C10 example. -/
def exSignalTParam : CppFunction :=
  { path := .mk (.mk "C" .noArgs) (.cons (.mk "valueChanged" .noArgs) .nil)
    member := some exSignalMemberData
    operator := none
    return_type := .Void
    arguments := [ { name := "x", argument_type := tParam0, has_default_value := false } ]
    allows_variadic_arguments := false
    cast := none
    declaration_code := none }

/-- C10: `receiver_id` succeeds exactly when the declaration is a signal
or a slot and every argument type has a standalone C++ spelling; on a
valid signal whose argument type is a bare template parameter it fails
with an error distinct from the `NotASignalOrSlot` kind. -/
theorem C10_receiver_id_ok_characterization :
    (∀ f : CppFunction, (∃ s, f.receiver_id = .ok s) ↔
      ((∃ m, f.member = some m ∧ (m.is_slot = true ∨ m.is_signal = true)) ∧
        ∀ arg ∈ f.arguments, ∃ c, arg.argument_type.to_cpp_code = .ok c)) ∧
    (exSignalTParam.member = some exSignalMemberData ∧
      exSignalMemberData.is_signal = true ∧
      exSignalTParam.receiver_id =
        .error "template parameters are not supported in C++ code" ∧
      ¬ NotASignalOrSlotError "template parameters are not supported in C++ code") := by
  refine ⟨?_, by decide, by decide, by decide, ?_⟩
  swap
  · show ¬("template parameters are not supported in C++ code" = "not a signal or slot" ∨
      "template parameters are not supported in C++ code" = "not a class method")
    decide
  intro f
  unfold CppFunction.receiver_id
  cases hm : f.member with
  | none =>
    constructor
    · rintro ⟨s, h⟩
      exact absurd h (by simp)
    · rintro ⟨⟨m, hm2, _⟩, _⟩
      cases hm2
  | some m =>
    by_cases hslot : m.is_slot = true
    · simp only [hslot, if_true]
      rw [receiver_id_from_data_ok_iff]
      constructor
      · intro H
        refine ⟨⟨m, rfl, Or.inl hslot⟩, fun arg ha => ?_⟩
        exact H _ (List.mem_map_of_mem _ ha)
      · rintro ⟨_, H⟩ t ht
        obtain ⟨arg, ha, rfl⟩ := List.mem_map.mp ht
        exact H arg ha
    · have hslot2 : m.is_slot = false := by
        cases hv : m.is_slot
        · rfl
        · exact absurd hv hslot
      by_cases hsig : m.is_signal = true
      · simp only [hslot2, Bool.false_eq_true, if_false, hsig, if_true]
        rw [receiver_id_from_data_ok_iff]
        constructor
        · intro H
          refine ⟨⟨m, rfl, Or.inr hsig⟩, fun arg ha => ?_⟩
          exact H _ (List.mem_map_of_mem _ ha)
        · rintro ⟨_, H⟩ t ht
          obtain ⟨arg, ha, rfl⟩ := List.mem_map.mp ht
          exact H arg ha
      · have hsig2 : m.is_signal = false := by
          cases hv : m.is_signal
          · rfl
          · exact absurd hv hsig
        simp only [hslot2, hsig2, Bool.false_eq_true, if_false]
        constructor
        · rintro ⟨s, h⟩
          exact absurd h (by simp)
        · rintro ⟨⟨m2, hm2, hor⟩, _⟩
          rw [Option.some.injEq] at hm2
          subst hm2
          rcases hor with hv | hv
          · rw [hslot2] at hv
            exact Bool.noConfusion hv
          · rw [hsig2] at hv
            exact Bool.noConfusion hv

/-- A concrete slot `C::onChange(int)` with a spellable argument type,
used by the C10 witness. -/
def exGoodSlot : CppFunction :=
  { path := .mk (.mk "C" .noArgs) (.cons (.mk "onChange" .noArgs) .nil)
    member := some
      { kind := .Regular
        is_virtual := false
        is_pure_virtual := false
        is_const := false
        is_static := false
        visibility := .Public
        is_signal := false
        is_slot := true }
    operator := none
    return_type := .Void
    arguments := [ { name := "v", argument_type := .Primitive "int", has_default_value := false } ]
    allows_variadic_arguments := false
    cast := none
    declaration_code := none }

/-- Witness for C10: the characterization applied at a concrete well-formed
slot produces a successful receiver identifier. -/
theorem C10_witness : ∃ s, exGoodSlot.receiver_id = .ok s :=
  (C10_receiver_id_ok_characterization.1 exGoodSlot).mpr
    ⟨⟨_, rfl, Or.inl rfl⟩, by
      intro arg ha
      rw [show exGoodSlot.arguments =
        [{ name := "v", argument_type := .Primitive "int", has_default_value := false }]
        from rfl] at ha
      rcases List.mem_singleton.mp ha with rfl
      exact ⟨"int", rfl⟩⟩

/-- C9: when `function_doc` processes a non-FFI, non-trait-impl function
whose source FFI item is a slot wrapper, a method name outside the known
rule set produces the unknown-slot-method error, surfaced to the caller. -/
theorem C9_unknown_slot_method (kind : RustFunctionKind) (name : String)
    (hk : kind ≠ RustFunctionKind.FfiFunction)
    (hn : name ∉ ["custom_slot", "new", "set", "meta_object", "qt_metacall",
      "qt_metacast", "static_meta_object", "tr", "tr_utf8"]) :
    function_doc_slot_wrapper_branch true kind false name =
      some (.error ("unknown slot wrapper method: " ++ name)) := by
  simp only [List.mem_cons, List.not_mem_nil, or_false, not_or] at hn
  obtain ⟨h1, h2, h3, h4, h5, h6, h7, h8, h9⟩ := hn
  unfold function_doc_slot_wrapper_branch slot_wrapper_method_doc
  simp [hk, h1, h2, h3, h4, h5, h6, h7, h8, h9]

/-- Witness for C9: a concrete unknown method name on a slot-wrapper type
with a non-FFI, non-trait-impl function kind. -/
theorem C9_witness :
    RustFunctionKind.FfiWrapper ≠ RustFunctionKind.FfiFunction ∧
    "resize" ∉ ["custom_slot", "new", "set", "meta_object", "qt_metacall",
      "qt_metacast", "static_meta_object", "tr", "tr_utf8"] ∧
    function_doc_slot_wrapper_branch true .FfiWrapper false "resize" =
      some (.error ("unknown slot wrapper method: " ++ "resize")) :=
  ⟨by decide, by decide,
    C9_unknown_slot_method .FfiWrapper "resize" (by decide) (by decide)⟩

/-- The argument-type list of the spec's concrete receiver example. -/
def exReceiverArgs : List CppType :=
  [ .Primitive "int"
  , .Class (.mk (.mk "QList" (.args (.cons
      (.Class (.mk (.mk "QModelIndex" .noArgs) .nil)) .nil))) .nil) ]

/-- Witness for C3: the format part applied at the spec's concrete slot
example. -/
theorem C3_witness :
    mapIfOk CppType.to_cpp_code exReceiverArgs = .ok ["int", "QList< QModelIndex >"] ∧
    CppFunction.receiver_id_from_data .Slot "valueChanged" exReceiverArgs =
      .ok ((match RustQtReceiverType.Slot with | .Signal => "2" | .Slot => "1")
        ++ "valueChanged" ++ "("
        ++ String.intercalate ","
          ((["int", "QList< QModelIndex >"]).map fun c =>
            CppFunction.patch_receiver_argument_type c)
        ++ ")") :=
  ⟨by decide,
    C3_receiver_id_from_data.1 .Slot "valueChanged" exReceiverArgs
      ["int", "QList< QModelIndex >"] (by decide)⟩
